import Mathlib

/- Shallow embedding of the appointment-reminder core of the AI voice agent
   repository: the reminder data model (src/database/models.py), the
   appointment service operations (src/appointments/appointment_service.py),
   the TwiML dialog flow (src/voice/twilio_service.py) and the webhook route
   (src/api/routes.py).  Instants are modelled as integers (seconds on the
   proleptic Gregorian timeline, matching naive datetime arithmetic). -/

/-- Reminder statuses, from the `reminder_status` enum of
`AppointmentReminder` in src/database/models.py. -/
inductive Status where
  | scheduled
  | sent
  | confirmed
  | rescheduled
  | failed
deriving DecidableEq, Repr

/-- The persisted reminder record, from `AppointmentReminder` in
src/database/models.py (the claim-relevant columns; the `created_at` and
`updated_at` bookkeeping columns are not touched by any claim). -/
structure Reminder where
  id : Nat
  patient_name : String
  phone_number : String
  appointment_date : Int
  message : Option String
  status : Status
  call_sid : Option String
deriving DecidableEq, Repr

/-- Decidable equality of `Except` results, so concrete runs of fallible
operations can be checked by `decide`. -/
instance {ε α : Type} [DecidableEq ε] [DecidableEq α] : DecidableEq (Except ε α) := fun a b =>
  match a, b with
  | Except.error x, Except.error y =>
    if h : x = y then isTrue (by rw [h])
    else isFalse (by intro he; injection he with h2; exact h h2)
  | Except.error _, Except.ok _ => isFalse fun he => Except.noConfusion he
  | Except.ok _, Except.error _ => isFalse fun he => Except.noConfusion he
  | Except.ok x, Except.ok y =>
    if h : x = y then isTrue (by rw [h])
    else isFalse (by intro he; injection he with h2; exact h h2)

/-- Modelled from the Python stdlib: digit value of a character. -/
def digVal? (c : Char) : Option Nat :=
  if '0' ≤ c ∧ c ≤ '9' then some (c.toNat - '0'.toNat) else none

/-- Modelled from the Python stdlib: read exactly two digits. -/
def read2 : List Char → Option (Nat × List Char)
  | a :: b :: rest =>
    match digVal? a, digVal? b with
    | some x, some y => some (10 * x + y, rest)
    | _, _ => none
  | _ => none

/-- Modelled from the Python stdlib: read exactly four digits. -/
def read4 : List Char → Option (Nat × List Char)
  | a :: b :: c :: d :: rest =>
    match digVal? a, digVal? b, digVal? c, digVal? d with
    | some x, some y, some z, some w => some (1000 * x + 100 * y + 10 * z + w, rest)
    | _, _, _, _ => none
  | _ => none

/-- Modelled from the Python stdlib: consume one expected character. -/
def expect (ch : Char) : List Char → Option (List Char)
  | c :: rest => if c = ch then some rest else none
  | [] => none

/-- Gregorian leap-year test, as used by the stdlib calendar. -/
def isLeapYear (y : Nat) : Bool :=
  y % 4 = 0 && (y % 100 ≠ 0 || y % 400 = 0)

/-- Number of days in a month of the proleptic Gregorian calendar. -/
def daysInMonth (y m : Nat) : Nat :=
  if m = 2 then (if isLeapYear y then 29 else 28)
  else if m = 4 ∨ m = 6 ∨ m = 9 ∨ m = 11 then 30
  else 31

/-- Days since 1970-01-01 of a Gregorian date (year ≥ 1), the standard
days-from-civil computation; all intermediate divisions are on naturals. -/
def daysFromCivil (y m d : Nat) : Int :=
  let y' : Nat := if m ≤ 2 then y - 1 else y
  let era : Nat := y' / 400
  let yoe : Nat := y' - era * 400
  let mp : Nat := (m + 9) % 12
  let doy : Nat := (153 * mp + 2) / 5 + d - 1
  let doe : Nat := yoe * 365 + yoe / 4 - yoe / 100 + doy
  (era : Int) * 146097 + (doe : Int) - 719468

/-- Modelled from the Python stdlib: optional `:SS` tail of a time. -/
def parseSec : List Char → Option Nat
  | [] => some 0
  | ':' :: cs =>
    match read2 cs with
    | some (s, []) => if s ≤ 59 then some s else none
    | _ => none
  | _ => none

/-- Modelled from the Python stdlib: optional `:MM[:SS]` tail of a time. -/
def parseMinSec : List Char → Option Nat
  | [] => some 0
  | ':' :: cs =>
    match read2 cs with
    | some (mi, rest) =>
      if mi ≤ 59 then
        match parseSec rest with
        | some s => some (mi * 60 + s)
        | none => none
      else none
    | none => none
  | _ => none

/-- Modelled from the Python stdlib: `HH[:MM[:SS]]`, in seconds of the day. -/
def parseTime (cs : List Char) : Option Nat :=
  match read2 cs with
  | some (h, rest) =>
    if h ≤ 23 then
      match parseMinSec rest with
      | some ms => some (h * 3600 + ms)
      | none => none
    else none
  | none => none

/-- Modelled from the Python stdlib: `datetime.fromisoformat`, restricted to
`YYYY-MM-DD` optionally followed by one separator character and `HH[:MM[:SS]]`
(no fractional seconds and no timezone offset), returning seconds since
1970-01-01; `none` models the `ValueError` the stdlib raises for an
unparseable string. -/
def fromisoformat (s : String) : Option Int :=
  match read4 s.data with
  | some (y, rest1) =>
    if 1 ≤ y then
      match expect '-' rest1 with
      | some rest2 =>
        match read2 rest2 with
        | some (m, rest3) =>
          if 1 ≤ m ∧ m ≤ 12 then
            match expect '-' rest3 with
            | some rest4 =>
              match read2 rest4 with
              | some (d, rest5) =>
                if 1 ≤ d ∧ d ≤ daysInMonth y m then
                  match rest5 with
                  | [] => some (daysFromCivil y m d * 86400)
                  | _sep :: timeChars =>
                    match parseTime timeChars with
                    | some t => some (daysFromCivil y m d * 86400 + (t : Int))
                    | none => none
                else none
              | none => none
            | none => none
          else none
        | none => none
      | none => none
    else none
  | none => none

/-- Update the first element satisfying `p` with `f`, leaving the rest alone:
the shape of `db.query(AppointmentReminder).filter(cond).first()` followed by
an attribute mutation and `db.commit()`. -/
def updateFirst {α : Type} (p : α → Bool) (f : α → α) : List α → List α
  | [] => []
  | x :: xs => if p x then f x :: xs else x :: updateFirst p f xs

namespace AppointmentService

/-- The body of `create_appointment_reminder`
(src/appointments/appointment_service.py, lines 38-82): parse the appointment
date (an unparseable string raises, modelled by `Except.error`, and the
rollback leaves the database unchanged), then persist a new reminder with
status `scheduled` and no call SID and return its id.  The phone number is
stored as given. -/
def create_appointment_reminder (db : List Reminder) (next_id : Nat)
    (phone_number : String) (appointment_date : String) (patient_name : String)
    (message : Option String) : Except String (List Reminder × Nat) :=
  match fromisoformat appointment_date with
  | none => Except.error "Invalid isoformat string"
  | some appointment_datetime =>
    Except.ok (db ++
      [{ id := next_id, patient_name := patient_name, phone_number := phone_number,
         appointment_date := appointment_datetime, message := message,
         status := Status.scheduled, call_sid := none }], next_id)

/-- The body of `_make_reminder_call`
(src/appointments/appointment_service.py, lines 117-161) on one reminder
record.  The two collaborator calls that can raise are passed as results:
`gen` is `voice_agent.get_appointment_reminder` and `place` is
`twilio_service.make_call`.  On success the call SID is stored and the status
set to `sent`; on any raised exception the status is set to `failed` and the
failure reason is written to the log (second component). -/
def make_reminder_call (gen place : Except String String) (r : Reminder) :
    Reminder × List String :=
  match gen with
  | Except.error e =>
    ({ r with status := Status.failed }, ["Error making reminder call: " ++ e])
  | Except.ok _reminder_text =>
    match place with
    | Except.error e =>
      ({ r with status := Status.failed }, ["Error making reminder call: " ++ e])
    | Except.ok call_sid =>
      ({ r with call_sid := some call_sid, status := Status.sent },
       ["Made reminder call to " ++ r.phone_number ++ " for reminder " ++ toString r.id])

/-- `_make_reminder_call` at the database level: the reminder object fetched
by id is mutated and committed in place. -/
def make_reminder_call_db (gen place : Except String String) (reminder_id : Nat)
    (db : List Reminder) : List Reminder :=
  updateFirst (fun r => r.id == reminder_id) (fun r => (make_reminder_call gen place r).1) db

/-- Outcome of `schedule_reminder_call`: the reminder is missing, the call is
made now, or (the "would schedule" log branch) the call is deferred to the
computed call time. -/
inductive ScheduleOutcome where
  | notFound
  | callNow
  | deferUntil (call_time : Int)
deriving DecidableEq, Repr

/-- The timing decision of `schedule_reminder_call`
(src/appointments/appointment_service.py, lines 84-115): look the reminder up
by id (absent: log and return), compute `call_time = appointment_date - 24h`;
if `call_time < now` the call is made immediately (`_make_reminder_call`,
modelled by `make_reminder_call_db`), otherwise the code only logs that it
would schedule the call for `call_time`. -/
def schedule_reminder_call (reminder_id : Nat) (now : Int) (db : List Reminder) :
    ScheduleOutcome :=
  match db.find? (fun r => r.id == reminder_id) with
  | none => ScheduleOutcome.notFound
  | some reminder =>
    let call_time := reminder.appointment_date - 24 * 3600
    if call_time < now then ScheduleOutcome.callNow
    else ScheduleOutcome.deferUntil call_time

/-- The status update applied by `handle_call_status_callback`
(src/appointments/appointment_service.py, lines 180-186) to the matched
reminder: `completed` sets `sent`; `failed`, `busy` and `no-answer` set
`failed`; any other status string leaves the record untouched. -/
def applyStatus (status : String) (r : Reminder) : Reminder :=
  if status = "completed" then { r with status := Status.sent }
  else if status = "failed" ∨ status = "busy" ∨ status = "no-answer" then
    { r with status := Status.failed }
  else r

/-- The body of `handle_call_status_callback`
(src/appointments/appointment_service.py, lines 163-191): find the first
reminder whose `call_sid` equals the given one (none: log a warning and
return, leaving the database unchanged) and apply the status mapping. -/
def handle_call_status_callback (call_sid : Option String) (status : String)
    (db : List Reminder) : List Reminder :=
  updateFirst (fun r => r.call_sid == call_sid) (applyStatus status) db

/-- The body of `handle_appointment_confirmation`
(src/appointments/appointment_service.py, lines 193-221): find the reminder
by id and set its status to `confirmed` or `rescheduled`. -/
def handle_appointment_confirmation (reminder_id : Nat) (confirmed : Bool)
    (db : List Reminder) : List Reminder :=
  updateFirst (fun r => r.id == reminder_id)
    (fun r => { r with status := if confirmed then Status.confirmed else Status.rescheduled })
    db

end AppointmentService

namespace Routes

/-- The body of the `/call-status-callback/{reminder_id}` route
(src/api/routes.py, lines 77-95): look the reminder up by the path id; if
absent, raise `HTTPException(404)` (modelled by `Except.error 404`), otherwise
invoke `handle_call_status_callback` with that reminder's own call SID and the
hard-coded status `"completed"` and answer with a success message. -/
def call_status_callback (reminder_id : Nat) (db : List Reminder) :
    Except Nat (List Reminder × String) :=
  match db.find? (fun r => r.id == reminder_id) with
  | none => Except.error 404
  | some r =>
    Except.ok (AppointmentService.handle_call_status_callback r.call_sid "completed" db,
      "Status updated successfully")

end Routes

/-- One TwiML verb of the rendered voice script, from the `VoiceResponse`
construction in src/voice/twilio_service.py: a spoken text, a one-digit
gather (with its nested prompt and its `action` URL), a dial, or a hangup. -/
inductive Verb where
  | say (text : String)
  | gather (prompt : String) (action : String)
  | dial (number : String)
  | hangup
deriving DecidableEq, Repr

/-- One input event of a reminder-confirmation call: a pressed digit
(delivered to the gather's action URL) or the expiry of the gather window. -/
inductive CallEvent where
  | digit (d : String)
  | timeout
deriving DecidableEq, Repr

namespace TwilioVoiceService

/-- The confirmation prompt spoken inside every gather of the reminder flow
(src/voice/twilio_service.py, lines 178, 189 and 234). -/
def confirmPrompt : String :=
  "Press 1 to confirm your appointment, or press 2 to speak with our staff."

/-- The body of `generate_appointment_reminder_twiml`
(src/voice/twilio_service.py, lines 157-196): say the reminder, gather one
digit with the confirmation prompt, on timeout announce a repeat and gather
once more, and on a second timeout say the closing message and hang up. -/
def generate_appointment_reminder_twiml (reminder_text : String) : List Verb :=
  [Verb.say reminder_text,
   Verb.gather confirmPrompt "/appointment-confirm",
   Verb.say "I didn\x27t receive your input. Let me repeat.",
   Verb.gather confirmPrompt "/appointment-confirm",
   Verb.say "Thank you for your time. If you need to make any changes to your appointment, please call our office during business hours. Goodbye!",
   Verb.hangup]

/-- The body of `handle_appointment_confirmation`
(src/voice/twilio_service.py, lines 198-240): digit 1 thanks and hangs up,
digit 2 dials the staff number, and any other digit apologizes, gathers the
same confirmation prompt again, and only on timeout says goodbye and hangs
up. -/
def handle_appointment_confirmation (digit : String) : List Verb :=
  if digit = "1" then
    [Verb.say "Thank you for confirming your appointment. We look forward to seeing you. Goodbye!",
     Verb.hangup]
  else if digit = "2" then
    [Verb.say "I\x27ll connect you with our office staff. Please hold.",
     Verb.dial "+11234567890",
     Verb.say "The call could not be completed. Please try calling our main office number directly. Goodbye!",
     Verb.hangup]
  else
    [Verb.say "I\x27m sorry, I didn\x27t understand your selection.",
     Verb.gather confirmPrompt "/appointment-confirm",
     Verb.say "Thank you for your time. Goodbye!",
     Verb.hangup]

end TwilioVoiceService

/-- Render a TwiML document up to its first pending gather: the rendered
prefix (the gather renders its nested prompt), and, when the document stops at
a gather, that gather's prompt, action URL and the verbs that follow it
(executed only if the gather times out).  A hangup ends the document. -/
def splitAtGather : List Verb → List Verb × Option (String × String × List Verb)
  | [] => ([], none)
  | Verb.say t :: rest =>
    let (pre, g) := splitAtGather rest
    (Verb.say t :: pre, g)
  | Verb.dial n :: rest =>
    let (pre, g) := splitAtGather rest
    (Verb.dial n :: pre, g)
  | Verb.hangup :: _ => ([Verb.hangup], none)
  | Verb.gather p a :: rest => ([Verb.gather p a], some (p, a, rest))

/-- Twilio call semantics for the reminder-confirmation flow: execute the
current document; at a gather, a digit event is POSTed to the gather's action
(`/appointment-confirm` is served by
`TwilioVoiceService.handle_appointment_confirmation`, whose response becomes
the new document), while a timeout falls through to the verbs after the
gather.  The result is the full rendered trace of the call. -/
def runCall : List CallEvent → List Verb → List Verb
  | [], vs => (splitAtGather vs).1
  | ev :: evs, vs =>
    match splitAtGather vs with
    | (pre, none) => pre
    | (pre, some (_p, a, rest)) =>
      match ev with
      | CallEvent.timeout => pre ++ runCall evs rest
      | CallEvent.digit d =>
        if a = "/appointment-confirm" then
          pre ++ runCall evs (TwilioVoiceService.handle_appointment_confirmation d)
        else pre

/-- Whether a verb renders the confirmation prompt (a gather speaking it). -/
def isConfirmGatherPrompt : Verb → Bool
  | Verb.gather p _ => p == TwilioVoiceService.confirmPrompt
  | _ => false

/-- How many times a rendered trace spoke the confirmation prompt. -/
def promptRenderCount (trace : List Verb) : Nat :=
  (trace.filter isConfirmGatherPrompt).length

/-- Databases reachable from the empty store by the core operations of the
appointment service: creating a reminder, attempting its call, reconciling a
delivery-status callback, and recording an in-call confirmation outcome. -/
inductive Reach : List Reminder → Prop where
  | empty : Reach []
  | create {db db' : List Reminder} {nid rid : Nat} {phone d name : String}
      {msg : Option String} :
      Reach db →
      AppointmentService.create_appointment_reminder db nid phone d name msg
        = Except.ok (db', rid) →
      Reach db'
  | attempt {db : List Reminder} (gen place : Except String String) (rid : Nat) :
      Reach db → Reach (AppointmentService.make_reminder_call_db gen place rid db)
  | callback {db : List Reminder} (sid : Option String) (ev : String) :
      Reach db → Reach (AppointmentService.handle_call_status_callback sid ev db)
  | confirm {db : List Reminder} (rid : Nat) (confirmed : Bool) :
      Reach db → Reach (AppointmentService.handle_appointment_confirmation rid confirmed db)

/-- A default reminder record, used only as the fallback of `List.headD` in
concrete statements. -/
def fallbackR : Reminder :=
  { id := 0, patient_name := "", phone_number := "", appointment_date := 0,
    message := none, status := Status.scheduled, call_sid := none }

/-- The database after creating one reminder for Alice. -/
def dbA : List Reminder :=
  match AppointmentService.create_appointment_reminder [] 1 "+15551234567"
      "2025-06-01T10:00:00" "Alice" none with
  | Except.ok (db, _) => db
  | Except.error _ => []

/-- The database after the reminder call was placed successfully with call
SID `CA1`. -/
def dbB : List Reminder :=
  AppointmentService.make_reminder_call_db (Except.ok "script") (Except.ok "CA1") 1 dbA

/-- The database after a `no-answer` delivery status moved the reminder to
`failed`. -/
def dbC : List Reminder :=
  AppointmentService.handle_call_status_callback (some "CA1") "no-answer" dbB

/-- The database after the patient confirmed in-call (status `confirmed`). -/
def dbConf : List Reminder :=
  AppointmentService.handle_appointment_confirmation 1 true dbB

/-- The database after the attempted call failed to place (the gateway
raised): the reminder is `failed` and carries no call SID. -/
def dbFailPlace : List Reminder :=
  AppointmentService.make_reminder_call_db (Except.ok "script")
    (Except.error "gateway refused") 1 dbA

/-- Every element of `updateFirst p f l` is an element of `l` or the image
under `f` of an element of `l`. -/
theorem updateFirst_mem {α : Type} {p : α → Bool} {f : α → α} {l : List α} {x : α}
    (hx : x ∈ updateFirst p f l) : x ∈ l ∨ ∃ y, y ∈ l ∧ x = f y := by
  induction l with
  | nil => simp [updateFirst] at hx
  | cons a t ih =>
    by_cases hp : p a
    · rw [updateFirst, if_pos hp] at hx
      rcases List.mem_cons.mp hx with h | h
      · exact Or.inr ⟨a, List.mem_cons_self a t, h⟩
      · exact Or.inl (List.mem_cons_of_mem a h)
    · rw [updateFirst, if_neg hp] at hx
      rcases List.mem_cons.mp hx with h | h
      · exact Or.inl (h ▸ List.mem_cons_self a t)
      · rcases ih h with h' | ⟨y, hy, hxy⟩
        · exact Or.inl (List.mem_cons_of_mem a h')
        · exact Or.inr ⟨y, List.mem_cons_of_mem a hy, hxy⟩

/-- When no element satisfies `p`, `updateFirst` is the identity. -/
theorem updateFirst_of_no_match {α : Type} {p : α → Bool} {f : α → α} {l : List α}
    (h : ∀ x ∈ l, p x = false) : updateFirst p f l = l := by
  induction l with
  | nil => rfl
  | cons a t ih =>
    rw [updateFirst, if_neg (by simp [h a (List.mem_cons_self a t)]),
      ih fun x hx => h x (List.mem_cons_of_mem a hx)]

/-- When `f` fixes every element, `updateFirst` is the identity. -/
theorem updateFirst_of_id {α : Type} {p : α → Bool} {f : α → α}
    (h : ∀ x, f x = x) (l : List α) : updateFirst p f l = l := by
  induction l with
  | nil => rfl
  | cons a t ih =>
    by_cases hp : p a
    · rw [updateFirst, if_pos hp, h a]
    · rw [updateFirst, if_neg hp, ih]

/-- When `f` preserves `p` and is idempotent, `updateFirst p f` is
idempotent. -/
theorem updateFirst_idem {α : Type} {p : α → Bool} {f : α → α}
    (hp : ∀ x, p (f x) = p x) (hf : ∀ x, f (f x) = f x) (l : List α) :
    updateFirst p f (updateFirst p f l) = updateFirst p f l := by
  induction l with
  | nil => rfl
  | cons a t ih =>
    by_cases ha : p a
    · rw [updateFirst, if_pos ha, updateFirst, if_pos (by rw [hp a]; exact ha), hf a]
    · rw [updateFirst, if_neg ha, updateFirst, if_neg ha, ih]

/-- `updateFirst` rewrites exactly the first match. -/
theorem updateFirst_append {α : Type} {p : α → Bool} {f : α → α}
    {pre post : List α} {r : α} (hpre : ∀ x ∈ pre, p x = false) (hr : p r = true) :
    updateFirst p f (pre ++ r :: post) = pre ++ f r :: post := by
  induction pre with
  | nil => simp [updateFirst, hr]
  | cons a t ih =>
    rw [List.cons_append, updateFirst, if_neg (by simp [hpre a (List.mem_cons_self a t)]),
      ih fun x hx => hpre x (List.mem_cons_of_mem a hx), List.cons_append]

namespace AppointmentService

/-- The status mapping never touches the stored call SID. -/
theorem applyStatus_call_sid (ev : String) (r : Reminder) :
    (applyStatus ev r).call_sid = r.call_sid := by
  unfold applyStatus
  split
  · rfl
  · split <;> rfl

/-- The status mapping is idempotent for a fixed event kind. -/
theorem applyStatus_idem (ev : String) (r : Reminder) :
    applyStatus ev (applyStatus ev r) = applyStatus ev r := by
  unfold applyStatus
  split
  · simp_all
  · split <;> simp_all

/-- The status mapping never writes `scheduled`. -/
theorem applyStatus_scheduled {ev : String} {r : Reminder}
    (h : (applyStatus ev r).status = Status.scheduled) :
    r.status = Status.scheduled := by
  unfold applyStatus at h
  split at h
  · simp at h
  · split at h
    · simp at h
    · exact h

/-- An event kind outside the four recognized delivery statuses leaves the
record untouched. -/
theorem applyStatus_other {ev : String} (h1 : ev ≠ "completed") (h2 : ev ≠ "failed")
    (h3 : ev ≠ "busy") (h4 : ev ≠ "no-answer") (r : Reminder) :
    applyStatus ev r = r := by
  unfold applyStatus
  rw [if_neg h1, if_neg (by simp [h2, h3, h4])]

/-- A call attempt always leaves the reminder `sent` or `failed`, never
`scheduled`. -/
theorem make_reminder_call_status (gen place : Except String String) (r : Reminder) :
    (make_reminder_call gen place r).1.status = Status.sent ∨
    (make_reminder_call gen place r).1.status = Status.failed := by
  unfold make_reminder_call
  cases gen with
  | error e => exact Or.inr rfl
  | ok t => cases place with
    | error e => exact Or.inr rfl
    | ok sid => exact Or.inl rfl

end AppointmentService

/-- A successful creation appends exactly one fresh `scheduled` reminder with
no call SID and returns its id. -/
theorem create_ok_shape {db db' : List Reminder} {nid rid : Nat} {phone d name : String}
    {msg : Option String}
    (h : AppointmentService.create_appointment_reminder db nid phone d name msg
      = Except.ok (db', rid)) :
    ∃ t, db' = db ++
      [{ id := nid, patient_name := name, phone_number := phone, appointment_date := t,
         message := msg, status := Status.scheduled, call_sid := none }] ∧ rid = nid := by
  unfold AppointmentService.create_appointment_reminder at h
  split at h
  · exact Except.noConfusion h
  · rename_i t hf
    simp only [Except.ok.injEq, Prod.mk.injEq] at h
    exact ⟨t, h.1.symm, h.2.symm⟩

/-- In every reachable database, a reminder that carries a call SID is not
`scheduled`. -/
theorem reach_inv {db : List Reminder} (h : Reach db) :
    ∀ r ∈ db, r.call_sid ≠ none → r.status ≠ Status.scheduled := by
  induction h with
  | empty => intro r hr; exact absurd hr (List.not_mem_nil r)
  | create hdb heq ih =>
    rcases create_ok_shape heq with ⟨t, rfl, -⟩
    intro r hr hsid hsched
    rcases List.mem_append.mp hr with h' | h'
    · exact ih r h' hsid hsched
    · rw [List.mem_singleton.mp h'] at hsid
      exact hsid rfl
  | attempt gen place rid hdb ih =>
    intro r hr hsid hsched
    rcases updateFirst_mem hr with h' | ⟨y, hy, rfl⟩
    · exact ih r h' hsid hsched
    · rcases AppointmentService.make_reminder_call_status gen place y with h'' | h'' <;>
        rw [hsched] at h'' <;> exact Status.noConfusion h''
  | callback sid ev hdb ih =>
    intro r hr hsid hsched
    rcases updateFirst_mem hr with h' | ⟨y, hy, rfl⟩
    · exact ih r h' hsid hsched
    · exact ih y hy (by rw [← AppointmentService.applyStatus_call_sid ev y]; exact hsid)
        (AppointmentService.applyStatus_scheduled hsched)
  | confirm rid c hdb ih =>
    intro r hr hsid hsched
    rcases updateFirst_mem hr with h' | ⟨y, hy, rfl⟩
    · exact ih r h' hsid hsched
    · revert hsched
      by_cases hc : c <;> simp [hc]

/-- The one-reminder database `dbA` is reachable. -/
theorem reach_dbA : Reach dbA :=
  Reach.create Reach.empty
    ((by decide) : AppointmentService.create_appointment_reminder [] 1 "+15551234567"
      "2025-06-01T10:00:00" "Alice" none = Except.ok (dbA, 1))

/-- The database with the successfully placed call is reachable. -/
theorem reach_dbB : Reach dbB := Reach.attempt _ _ _ reach_dbA

/-- The database with the `no-answer` failure is reachable. -/
theorem reach_dbC : Reach dbC := Reach.callback _ _ reach_dbB

/-- The database with the in-call confirmation recorded is reachable. -/
theorem reach_dbConf : Reach dbConf := Reach.confirm _ _ reach_dbB

/-- The database with the failed placement is reachable. -/
theorem reach_dbFailPlace : Reach dbFailPlace := Reach.attempt _ _ _ reach_dbA

/-- Claim C1 (amended): no core operation ever moves a reminder into the
`scheduled` status — the status reconciler, the in-call confirmation handler
and the call attempt only ever write `sent`, `failed`, `confirmed` or
`rescheduled` — but terminal statuses are not preserved: the reconciler
overwrites them, so the last delivery event wins, not the first (see the
counterexample). -/
theorem c1_no_operation_reenters_scheduled :
    (∀ (sid : Option String) (ev : String) (db : List Reminder) (r' : Reminder),
      r' ∈ AppointmentService.handle_call_status_callback sid ev db →
      r'.status = Status.scheduled → ∃ r ∈ db, r.status = Status.scheduled)
    ∧ (∀ (rid : Nat) (c : Bool) (db : List Reminder) (r' : Reminder),
      r' ∈ AppointmentService.handle_appointment_confirmation rid c db →
      r'.status = Status.scheduled → ∃ r ∈ db, r.status = Status.scheduled)
    ∧ (∀ (gen place : Except String String) (rid : Nat) (db : List Reminder) (r' : Reminder),
      r' ∈ AppointmentService.make_reminder_call_db gen place rid db →
      r'.status = Status.scheduled → ∃ r ∈ db, r.status = Status.scheduled) := by
  refine ⟨?_, ?_, ?_⟩
  · intro sid ev db r' hmem hsched
    rcases updateFirst_mem hmem with h | ⟨y, hy, rfl⟩
    · exact ⟨r', h, hsched⟩
    · exact ⟨y, hy, AppointmentService.applyStatus_scheduled hsched⟩
  · intro rid c db r' hmem hsched
    rcases updateFirst_mem hmem with h | ⟨y, hy, rfl⟩
    · exact ⟨r', h, hsched⟩
    · exfalso; revert hsched; by_cases hc : c <;> simp [hc]
  · intro gen place rid db r' hmem hsched
    rcases updateFirst_mem hmem with h | ⟨y, hy, rfl⟩
    · exact ⟨r', h, hsched⟩
    · exfalso
      rcases AppointmentService.make_reminder_call_status gen place y with h'' | h'' <;>
        rw [hsched] at h'' <;> exact Status.noConfusion h''

/-- Claim C1 witness: applying the theorem to the concrete reachable
database `dbA` and a `ringing` event. -/
theorem c1_witness : ∃ r ∈ dbA, r.status = Status.scheduled :=
  c1_no_operation_reenters_scheduled.1 (some "Z") "ringing" dbA (dbA.headD fallbackR)
    (by decide) (by decide)

/-- Claim C1 counterexample: in the reachable database `dbC` the reminder is
in the terminal status `failed`, yet reconciling a `completed` delivery event
moves it back to `sent` — a transition out of a terminal status, so when
`failed` arrives before `completed` the first terminal transition does not
win. -/
theorem c1_counterexample :
    Reach dbC
    ∧ (dbC.headD fallbackR).status = Status.failed
    ∧ ((AppointmentService.handle_call_status_callback (some "CA1") "completed" dbC).headD
        fallbackR).status = Status.sent :=
  ⟨reach_dbC, by decide, by decide⟩

/-- Claim C2 (amended): for the first reminder matched by call SID, a
`completed` delivery event sets the status to `sent` unconditionally —
discarding any in-call confirmation outcome recorded earlier — and `failed`,
`busy` and `no-answer` set it to `failed`. -/
theorem c2_completed_maps_to_sent (pre post : List Reminder) (r : Reminder) (s : String)
    (hpre : ∀ x ∈ pre, x.call_sid ≠ some s) (hr : r.call_sid = some s) :
    AppointmentService.handle_call_status_callback (some s) "completed" (pre ++ r :: post)
      = pre ++ { r with status := Status.sent } :: post
    ∧ ∀ ev : String, ev = "failed" ∨ ev = "busy" ∨ ev = "no-answer" →
      AppointmentService.handle_call_status_callback (some s) ev (pre ++ r :: post)
        = pre ++ { r with status := Status.failed } :: post := by
  have hpre' : ∀ x ∈ pre, (x.call_sid == some s) = false := by
    intro x hx
    simpa using hpre x hx
  have hr' : (r.call_sid == some s) = true := by simpa using hr
  constructor
  · rw [AppointmentService.handle_call_status_callback, updateFirst_append hpre' hr']
    have hc : AppointmentService.applyStatus "completed" r = { r with status := Status.sent } := by
      unfold AppointmentService.applyStatus
      rw [if_pos rfl]
    rw [hc]
  · intro ev hev
    rw [AppointmentService.handle_call_status_callback, updateFirst_append hpre' hr']
    have hc : AppointmentService.applyStatus ev r = { r with status := Status.failed } := by
      unfold AppointmentService.applyStatus
      rcases hev with rfl | rfl | rfl
      · rw [if_neg (by decide), if_pos (Or.inl rfl)]
      · rw [if_neg (by decide), if_pos (Or.inr (Or.inl rfl))]
      · rw [if_neg (by decide), if_pos (Or.inr (Or.inr rfl))]
    rw [hc]

/-- Claim C2 witness: applying the theorem to the concrete confirmed
reminder of `dbConf`. -/
theorem c2_witness :
    AppointmentService.handle_call_status_callback (some "CA1") "completed"
        ([] ++ dbConf.headD fallbackR :: [])
      = [] ++ { dbConf.headD fallbackR with status := Status.sent } :: [] :=
  (c2_completed_maps_to_sent [] [] (dbConf.headD fallbackR) "CA1"
    (by intro x hx; exact absurd hx (List.not_mem_nil x)) (by decide)).1

/-- Claim C2 counterexample: in the reachable database `dbConf` the most
recent in-call confirmation outcome left the reminder `confirmed`, yet
reconciling the `completed` delivery event sets it to `sent`, not
`confirmed`. -/
theorem c2_counterexample :
    Reach dbConf
    ∧ (dbConf.headD fallbackR).status = Status.confirmed
    ∧ ((AppointmentService.handle_call_status_callback (some "CA1") "completed" dbConf).headD
        fallbackR).status = Status.sent :=
  ⟨reach_dbConf, by decide, by decide⟩

/-- Claim C5 (amended): reconciliation is idempotent — applying the same
event kind twice in a row (in particular `completed` twice) yields the same
final database as applying it once, and it is total, never an error; applying
an event to an already-terminal reminder, however, is not a no-op, since the
mapping overwrites terminal statuses (see the counterexample). -/
theorem c5_reconcile_idempotent (sid : Option String) (ev : String) (db : List Reminder) :
    AppointmentService.handle_call_status_callback sid ev
        (AppointmentService.handle_call_status_callback sid ev db)
      = AppointmentService.handle_call_status_callback sid ev db := by
  unfold AppointmentService.handle_call_status_callback
  exact updateFirst_idem (fun r => by rw [AppointmentService.applyStatus_call_sid])
    (AppointmentService.applyStatus_idem ev) db

/-- Claim C5 counterexample: in the reachable database `dbConf` the reminder
is in the terminal status `confirmed`, and applying a `completed` event to it
is not a no-op — it changes the database (the status becomes `sent`). -/
theorem c5_counterexample :
    Reach dbConf
    ∧ (dbConf.headD fallbackR).status = Status.confirmed
    ∧ AppointmentService.handle_call_status_callback (some "CA1") "completed" dbConf ≠ dbConf :=
  ⟨reach_dbConf, by decide, by decide⟩

/-- Claim C6 (amended, service level): reconciling a delivery event whose
call SID matches no stored reminder does not raise, does not create a
reminder and leaves every stored reminder unchanged; the webhook route,
however, surfaces a 404 error when its path reminder id matches no reminder
(see the counterexample). -/
theorem c6_unknown_reference_noop (s ev : String) (db : List Reminder)
    (h : ∀ r ∈ db, r.call_sid ≠ some s) :
    AppointmentService.handle_call_status_callback (some s) ev db = db := by
  unfold AppointmentService.handle_call_status_callback
  exact updateFirst_of_no_match fun x hx => by simpa using h x hx

/-- Claim C6 witness: reconciling `"nonexistent-ref"` against the concrete
database `dbA` leaves it unchanged. -/
theorem c6_witness :
    AppointmentService.handle_call_status_callback (some "nonexistent-ref") "completed" dbA
      = dbA :=
  c6_unknown_reference_noop "nonexistent-ref" "completed" dbA (by decide)

/-- Claim C6 counterexample: the `/call-status-callback` route raises
`HTTPException(404)` — an error surfaced to the caller — when its reminder id
matches no stored reminder. -/
theorem c6_counterexample : Routes.call_status_callback 42 dbA = Except.error 404 := by decide

/-- Claim C10: a delivery-status event whose kind is none of `completed`,
`failed`, `busy` or `no-answer` (for example `initiated`, `ringing` or
`answered`) leaves the database — in particular the matched reminder and all
of its fields — entirely unchanged. -/
theorem c10_other_events_frame (sid : Option String) (ev : String) (db : List Reminder)
    (h1 : ev ≠ "completed") (h2 : ev ≠ "failed") (h3 : ev ≠ "busy") (h4 : ev ≠ "no-answer") :
    AppointmentService.handle_call_status_callback sid ev db = db := by
  unfold AppointmentService.handle_call_status_callback
  exact updateFirst_of_id (AppointmentService.applyStatus_other h1 h2 h3 h4) db

/-- Claim C10 witness: a `ringing` event leaves the concrete database `dbB`
unchanged. -/
theorem c10_witness :
    AppointmentService.handle_call_status_callback (some "CA1") "ringing" dbB = dbB :=
  c10_other_events_frame (some "CA1") "ringing" dbB (by decide) (by decide) (by decide)
    (by decide)

/-- Claim C3: a call attempt on a scheduled reminder that obtains a call SID
from the gateway stores exactly that SID and sets the status to `sent`; when
script generation or call placement raises, the status is set to `failed` and
the failure reason is recorded in the log. -/
theorem c3_attempt_call (r : Reminder) (_h : r.status = Status.scheduled) :
    (∀ txt sid : String,
      AppointmentService.make_reminder_call (Except.ok txt) (Except.ok sid) r
        = ({ r with call_sid := some sid, status := Status.sent },
           ["Made reminder call to " ++ r.phone_number ++ " for reminder " ++ toString r.id]))
    ∧ (∀ (e : String) (place : Except String String),
      (AppointmentService.make_reminder_call (Except.error e) place r).1.status = Status.failed
      ∧ ("Error making reminder call: " ++ e)
          ∈ (AppointmentService.make_reminder_call (Except.error e) place r).2)
    ∧ (∀ txt e : String,
      (AppointmentService.make_reminder_call (Except.ok txt) (Except.error e) r).1.status
        = Status.failed
      ∧ ("Error making reminder call: " ++ e)
          ∈ (AppointmentService.make_reminder_call (Except.ok txt) (Except.error e) r).2) :=
  ⟨fun _txt _sid => rfl,
   fun _e _place => ⟨rfl, List.mem_singleton.mpr rfl⟩,
   fun _txt _e => ⟨rfl, List.mem_singleton.mpr rfl⟩⟩

/-- Claim C3 witness: applying the theorem to the concrete scheduled reminder
of `dbA`, once with a successful placement and once with a failed script
generation. -/
theorem c3_witness :
    AppointmentService.make_reminder_call (Except.ok "script") (Except.ok "CA7")
        (dbA.headD fallbackR)
      = ({ dbA.headD fallbackR with call_sid := some "CA7", status := Status.sent },
         ["Made reminder call to " ++ (dbA.headD fallbackR).phone_number
            ++ " for reminder " ++ toString (dbA.headD fallbackR).id])
    ∧ (AppointmentService.make_reminder_call (Except.error "generation down") (Except.ok "CA7")
        (dbA.headD fallbackR)).1.status = Status.failed :=
  ⟨(c3_attempt_call (dbA.headD fallbackR) (by decide)).1 "script" "CA7",
   ((c3_attempt_call (dbA.headD fallbackR) (by decide)).2.1 "generation down"
      (Except.ok "CA7")).1⟩

/-- Claim C4 (amended): in every database reachable by the core operations, a
reminder that carries a call SID is never `scheduled` (equivalently,
scheduled reminders never carry a reference), and a freshly created reminder
is `scheduled` with no call SID; the converse direction of the claimed iff
fails, because a placement failure leaves a `failed` reminder with no SID
(see the counterexample). -/
theorem c4_reference_implies_started :
    (∀ db : List Reminder, Reach db →
      ∀ r ∈ db, r.call_sid ≠ none → r.status ≠ Status.scheduled)
    ∧ (∀ (db db' : List Reminder) (nid rid : Nat) (phone d name : String)
        (msg : Option String),
      AppointmentService.create_appointment_reminder db nid phone d name msg
        = Except.ok (db', rid) →
      ∃ t, db' = db ++
        [{ id := nid, patient_name := name, phone_number := phone, appointment_date := t,
           message := msg, status := Status.scheduled, call_sid := none }]
        ∧ rid = nid) :=
  ⟨fun _db h => reach_inv h, fun _ _ _ _ _ _ _ _ h => create_ok_shape h⟩

/-- Claim C4 witness: the sent reminder of the concrete reachable database
`dbB` carries a SID and, by the theorem, is not `scheduled`. -/
theorem c4_witness : (dbB.headD fallbackR).status ≠ Status.scheduled :=
  c4_reference_implies_started.1 dbB reach_dbB (dbB.headD fallbackR) (by decide) (by decide)

/-- Claim C4 counterexample: in the reachable database `dbFailPlace` the
reminder is `failed` — one of the statuses the claim says implies a stored
reference — yet it carries no call SID, because the placement raised before a
SID was obtained. -/
theorem c4_counterexample :
    Reach dbFailPlace
    ∧ (dbFailPlace.headD fallbackR).status = Status.failed
    ∧ (dbFailPlace.headD fallbackR).call_sid = none :=
  ⟨reach_dbFailPlace, by decide, by decide⟩

/-- Claim C7 (amended): `create_appointment_reminder` fails — persisting
nothing — exactly when the appointment instant is unparseable; the phone
number is never validated, so any phone string is accepted (see the
counterexample), and on success a `scheduled` reminder is appended and its id
returned. -/
theorem c7_create_validates_only_date (db : List Reminder) (nid : Nat)
    (phone date name : String) (msg : Option String) :
    (fromisoformat date = none →
      AppointmentService.create_appointment_reminder db nid phone date name msg
        = Except.error "Invalid isoformat string")
    ∧ (∀ t : Int, fromisoformat date = some t →
      AppointmentService.create_appointment_reminder db nid phone date name msg
        = Except.ok (db ++
            [{ id := nid, patient_name := name, phone_number := phone, appointment_date := t,
               message := msg, status := Status.scheduled, call_sid := none }], nid)) := by
  constructor
  · intro h
    unfold AppointmentService.create_appointment_reminder
    rw [h]
  · intro t h
    unfold AppointmentService.create_appointment_reminder
    rw [h]

/-- Claim C7 witness: applying the theorem to an unparseable date (month 13)
and to a parseable date-only string. -/
theorem c7_witness :
    AppointmentService.create_appointment_reminder [] 3 "" "2025-13-45" "Bob" none
      = Except.error "Invalid isoformat string"
    ∧ AppointmentService.create_appointment_reminder [] 3 "" "2025-06-01" "Bob" none
      = Except.ok ([] ++
          [{ id := 3, patient_name := "Bob", phone_number := "",
             appointment_date := daysFromCivil 2025 6 1 * 86400, message := none,
             status := Status.scheduled, call_sid := none }], 3) :=
  ⟨(c7_create_validates_only_date [] 3 "" "2025-13-45" "Bob" none).1 (by decide),
   (c7_create_validates_only_date [] 3 "" "2025-06-01" "Bob" none).2
     (daysFromCivil 2025 6 1 * 86400) (by decide)⟩

/-- Claim C7 counterexample: an empty phone number — which any basic
normalization rejects — is accepted and persisted, because the code never
validates the phone number. -/
theorem c7_counterexample :
    AppointmentService.create_appointment_reminder [] 1 "" "2025-06-01T10:00:00" "Carol" none
      = Except.ok
          ([{ id := 1, patient_name := "Carol", phone_number := "",
              appointment_date := 1748772000, message := none, status := Status.scheduled,
              call_sid := none }], 1) := by decide

/-- The scheduled reminder used in the concrete C8 scenarios: its appointment
instant is 172800 (48 hours after instant 0). -/
def rsched : Reminder :=
  { id := 5, patient_name := "Bea", phone_number := "+15550000000",
    appointment_date := 172800, message := none, status := Status.scheduled,
    call_sid := none }

/-- Claim C8 (amended): the 24-hour-lead decision of `schedule_reminder_call`
places the call immediately when `now` is strictly past `appointment - 24h`
and otherwise defers to `appointment - 24h`; at the exact boundary the code
defers rather than placing (see the counterexample).  An appointment 48 hours
out defers until `appointment - 24h`; one 2 hours out places immediately. -/
theorem c8_scheduling_decision (db : List Reminder) (rid : Nat) (now : Int) (r : Reminder)
    (hfind : db.find? (fun x => x.id == rid) = some r) :
    (r.appointment_date - 24 * 3600 < now →
      AppointmentService.schedule_reminder_call rid now db
        = AppointmentService.ScheduleOutcome.callNow)
    ∧ (now ≤ r.appointment_date - 24 * 3600 →
      AppointmentService.schedule_reminder_call rid now db
        = AppointmentService.ScheduleOutcome.deferUntil (r.appointment_date - 24 * 3600))
    ∧ (r.appointment_date = now + 48 * 3600 →
      AppointmentService.schedule_reminder_call rid now db
        = AppointmentService.ScheduleOutcome.deferUntil (now + 24 * 3600))
    ∧ (r.appointment_date = now + 2 * 3600 →
      AppointmentService.schedule_reminder_call rid now db
        = AppointmentService.ScheduleOutcome.callNow) := by
  have hreduce : AppointmentService.schedule_reminder_call rid now db
      = if r.appointment_date - 24 * 3600 < now then AppointmentService.ScheduleOutcome.callNow
        else AppointmentService.ScheduleOutcome.deferUntil (r.appointment_date - 24 * 3600) := by
    unfold AppointmentService.schedule_reminder_call
    rw [hfind]
  refine ⟨fun h => ?_, fun h => ?_, fun h => ?_, fun h => ?_⟩
  · rw [hreduce, if_pos h]
  · rw [hreduce, if_neg (by omega)]
  · rw [hreduce, if_neg (by omega)]
    congr 1
    omega
  · rw [hreduce, if_pos (by omega)]

/-- Claim C8 witness: applying the theorem to the concrete 48-hours-out
reminder `rsched` evaluated at instant 0. -/
theorem c8_witness :
    AppointmentService.schedule_reminder_call 5 0 [rsched]
      = AppointmentService.ScheduleOutcome.deferUntil (rsched.appointment_date - 24 * 3600) :=
  (c8_scheduling_decision [rsched] 5 0 rsched (by decide)).2.1 (by decide)

/-- Claim C8 counterexample: with `now` exactly at `appointment - 24h` the
claim requires `placeNow`, but the strict comparison `call_time < now` in the
code defers instead. -/
theorem c8_counterexample :
    AppointmentService.schedule_reminder_call 5 86400 [rsched]
      = AppointmentService.ScheduleOutcome.deferUntil 86400
    ∧ AppointmentService.schedule_reminder_call 5 86400 [rsched]
      ≠ AppointmentService.ScheduleOutcome.callNow := by
  exact ⟨by decide, by decide⟩

/-- Claim C9 (amended): in the reminder-confirmation dialog a timeout
re-renders the confirmation prompt exactly once and a second timeout renders
the closing message and ends the call; an unrecognized digit, however,
re-renders the prompt and gathers again every time it occurs, so after two
invalid digits the prompt has been rendered three times with the call still
open — the prompt is not bounded to a single re-render per call (see the
counterexample). -/
theorem c9_dialog_repeat (t d : String) (h1 : d ≠ "1") (h2 : d ≠ "2") :
    runCall [CallEvent.timeout, CallEvent.timeout]
        (TwilioVoiceService.generate_appointment_reminder_twiml t)
      = [Verb.say t,
         Verb.gather TwilioVoiceService.confirmPrompt "/appointment-confirm",
         Verb.say "I didn\x27t receive your input. Let me repeat.",
         Verb.gather TwilioVoiceService.confirmPrompt "/appointment-confirm",
         Verb.say "Thank you for your time. If you need to make any changes to your appointment, please call our office during business hours. Goodbye!",
         Verb.hangup]
    ∧ promptRenderCount (runCall [CallEvent.digit d, CallEvent.digit d]
        (TwilioVoiceService.generate_appointment_reminder_twiml t)) = 3 := by
  have hd : TwilioVoiceService.handle_appointment_confirmation d
      = [Verb.say "I\x27m sorry, I didn\x27t understand your selection.",
         Verb.gather TwilioVoiceService.confirmPrompt "/appointment-confirm",
         Verb.say "Thank you for your time. Goodbye!",
         Verb.hangup] := by
    unfold TwilioVoiceService.handle_appointment_confirmation
    rw [if_neg h1, if_neg h2]
  constructor
  · rfl
  · rw [show runCall [CallEvent.digit d, CallEvent.digit d]
          (TwilioVoiceService.generate_appointment_reminder_twiml t)
        = [Verb.say t, Verb.gather TwilioVoiceService.confirmPrompt "/appointment-confirm"]
          ++ runCall [CallEvent.digit d]
              (TwilioVoiceService.handle_appointment_confirmation d) from rfl, hd]
    rw [show runCall [CallEvent.digit d]
          [Verb.say "I\x27m sorry, I didn\x27t understand your selection.",
           Verb.gather TwilioVoiceService.confirmPrompt "/appointment-confirm",
           Verb.say "Thank you for your time. Goodbye!",
           Verb.hangup]
        = [Verb.say "I\x27m sorry, I didn\x27t understand your selection.",
           Verb.gather TwilioVoiceService.confirmPrompt "/appointment-confirm"]
          ++ runCall ([] : List CallEvent)
              (TwilioVoiceService.handle_appointment_confirmation d) from rfl, hd]
    rfl

/-- Claim C9 witness: applying the theorem to the concrete reminder text
`"Reminder"` and the invalid digit `"9"`. -/
theorem c9_witness :
    promptRenderCount (runCall [CallEvent.digit "9", CallEvent.digit "9"]
        (TwilioVoiceService.generate_appointment_reminder_twiml "Reminder")) = 3 :=
  (c9_dialog_repeat "Reminder" "9" (by decide) (by decide)).2

/-- Claim C9 counterexample: after two unrecognized digits the confirmation
prompt has been rendered three times and the call has not ended — no closing
message was reached and no hangup rendered — and a third invalid digit
renders the prompt a fourth time, contradicting both "re-rendered exactly
once" and "a second unrecognized digit transitions to Terminal". -/
theorem c9_counterexample :
    promptRenderCount (runCall [CallEvent.digit "9", CallEvent.digit "9"]
        (TwilioVoiceService.generate_appointment_reminder_twiml "R")) = 3
    ∧ Verb.hangup ∉ runCall [CallEvent.digit "9", CallEvent.digit "9"]
        (TwilioVoiceService.generate_appointment_reminder_twiml "R")
    ∧ promptRenderCount (runCall [CallEvent.digit "9", CallEvent.digit "9", CallEvent.digit "9"]
        (TwilioVoiceService.generate_appointment_reminder_twiml "R")) = 4 :=
  ⟨by decide, by decide, by decide⟩
